import Mathlib

/-!
Verification development for the UR Safe Stick vault SDK.

The Python modules under `ursafe_sdk/` are shallowly embedded here:
pure functions become Lean functions over `List Nat` byte strings, file
system state becomes explicit record values, and the external
cryptographic primitives (AES-GCM from `cryptography`, Argon2 from
`argon2-cffi`, Shamir split/combine from `pyshamir`, SHA-256) are
universally quantified function parameters, so every theorem holds for
the real primitives in particular.
-/

namespace URSafe

/-- Byte strings are lists of naturals; each entry is one byte (< 256). -/
abbrev Bytes := List Nat

/-! Constants from `ursafe_sdk/crypto_manager.py` and
`ursafe_sdk/chunk_manager.py`. -/

def ARGON2_TIME_COST : Nat := 2

def ARGON2_MEMORY_COST : Nat := 65536

def ARGON2_PARALLELISM : Nat := 2

def AES_KEY_SIZE : Nat := 32

def AES_NONCE_SIZE : Nat := 12

def DEFAULT_REQUIRED_SHARES : Nat := 10

def DEFAULT_TOTAL_SHARES : Nat := 20

/-! Hex encoding: Python's `bytes.hex()` (lowercase) and `bytes.fromhex`. -/

/-- Lowercase hex digit for a value below 16, as `bytes.hex()` emits. -/
def hexDigitChar (n : Nat) : Char :=
  if n < 10 then Char.ofNat (48 + n) else Char.ofNat (87 + n)

/-- Two lowercase hex characters of one byte. -/
def byteToHexChars (b : Nat) : List Char :=
  [hexDigitChar (b / 16 % 16), hexDigitChar (b % 16)]

/-- Model of Python `bytes.hex()`. -/
def bytesToHex (bs : Bytes) : String :=
  String.mk (bs.map byteToHexChars).flatten

/-- Value of a lowercase hex character. -/
def hexCharVal (c : Char) : Nat :=
  if c.toNat ≥ 97 then c.toNat - 87 else c.toNat - 48

/-- Pairs of hex characters back to bytes. -/
def hexCharsToBytes : List Char → Bytes
  | a :: b :: rest => (16 * hexCharVal a + hexCharVal b) :: hexCharsToBytes rest
  | _ => []

/-- Model of Python `bytes.fromhex` on lowercase hex input. -/
def hexToBytes (s : String) : Bytes :=
  hexCharsToBytes s.data

/-! Model of `ursafe_sdk/crypto_manager.py`.

The two raise sites of the module are `ValueError("Invalid AES key
size.")` and the wrapped `ValueError("Decryption failed. ...")`; the
spec's error taxonomy additionally names `InvalidNonceSize`, which is
included in the error type so that statements about it are expressible —
no code path of the source produces it. -/

inductive CryptoError where
  | InvalidKeySize
  | InvalidNonceSize
  | DecryptionFailed
deriving DecidableEq, Repr

/-- External AES-256-GCM encryption core (`AESGCM.encrypt` of the
`cryptography` library): key → nonce → plaintext → ciphertext with tag. -/
abbrev AesEnc := Bytes → Bytes → Bytes → Bytes

/-- External AES-256-GCM decryption core (`AESGCM.decrypt`): key → nonce →
ciphertext with tag → plaintext, `none` on authentication failure. -/
abbrev AesDec := Bytes → Bytes → Bytes → Option Bytes

/-- External `argon2.low_level.hash_secret_raw` with `type=Type.ID`:
time cost → memory cost → parallelism → hash length → secret → salt → key. -/
abbrev Argon2Fn := Nat → Nat → Nat → Nat → Bytes → Bytes → Bytes

/-- Model of `crypto_manager.encrypt_aes_gcm`. The 12-byte `os.urandom`
nonce drawn inside the Python function is passed as the explicit
`nonce` argument; the key-size check precedes its use, as in the source. -/
def encrypt_aes_gcm (aesgcm : AesEnc) (key data nonce : Bytes) :
    Except CryptoError (Bytes × Bytes) :=
  if key.length ≠ AES_KEY_SIZE then .error .InvalidKeySize
  else .ok (nonce, aesgcm key nonce data)

/-- Model of `crypto_manager.decrypt_aes_gcm`: a key-size check, then the
AEAD call whose failure is wrapped into the generic decryption error.
The source has no nonce-size check. -/
def decrypt_aes_gcm (aesgcm : AesDec) (key nonce encrypted_data : Bytes) :
    Except CryptoError Bytes :=
  if key.length ≠ AES_KEY_SIZE then .error .InvalidKeySize
  else
    match aesgcm key nonce encrypted_data with
    | some plaintext => .ok plaintext
    | none => .error .DecryptionFailed

/-- Model of `crypto_manager.derive_key_argon2`: Argon2id with the fixed
module constants and 32-byte output. -/
def derive_key_argon2 (argon2id : Argon2Fn) (password salt : Bytes) : Bytes :=
  argon2id ARGON2_TIME_COST ARGON2_MEMORY_COST ARGON2_PARALLELISM AES_KEY_SIZE password salt

/-! Model of `ursafe_sdk/chunk_manager.py`. -/

/-- External `pyshamir.split`: secret → total parts `n` → threshold `m` →
the list of shares. -/
abbrev SplitFn := Bytes → Nat → Nat → List Bytes

/-- Model of `chunk_manager.split_master_key`: the module itself checks
only that the secret is nonempty, then delegates to `pyshamir.split`
with arguments `(master_key, n, m)`. -/
def split_master_key (split : SplitFn) (master_key : Bytes) (m n : Nat) :
    Except String (List Bytes) :=
  if master_key.length = 0 then .error "Master key cannot be empty."
  else .ok (split master_key n m)

/-- Model of `chunk_manager.save_host_chunks`: the resulting host chunk
directory as a map from file index `i` (file `.c_i`) to its bytes;
share `k` is written to `.c_(k+1)`. -/
def save_host_chunks (shares : List Bytes) : Nat → Option Bytes :=
  fun i => if 1 ≤ i then shares[i - 1]? else none

/-- Model of `chunk_manager.load_host_chunks`: reads files `.c_1` …
`.c_num_chunks` in order, silently skipping missing ones; an absent
directory (`none`) yields the empty list. -/
def load_host_chunks (chunk_dir : Option (Nat → Option Bytes)) (num_chunks : Nat) :
    List Bytes :=
  match chunk_dir with
  | none => []
  | some files => (List.range num_chunks).filterMap (fun i => files (i + 1))

/-! Model of `ursafe_sdk/vault_manager.py`. -/

/-- Metadata object of `meta.json`. `initialize_vault` writes the three
required fields; `usb_signature` models the optional key that
`usb_manager.verify_stick` reads with `metadata.get` (absent = `none`). -/
structure Metadata where
  salt_hex : String
  usb_chunks_hex : List String
  system_fingerprint_hex : String
  usb_signature : Option String := none
deriving DecidableEq, Repr

/-- Number of host chunks, computed inline in `vault_manager` as
`chunk_manager.DEFAULT_REQUIRED_SHARES // 2` in both `initialize_vault`
(line 34) and `unlock_vault` (line 74). -/
def num_host_chunks : Nat := DEFAULT_REQUIRED_SHARES / 2

/-- UTF-8 bytes of `json.dumps({})`, the initial vault plaintext. -/
def initial_vault_data : Bytes := [123, 125]

/-- Model of `vault_manager.lock_vault`: encrypt, then write nonce
followed by ciphertext; the returned bytes are the vault file content. -/
def lock_vault (aesgcm : AesEnc) (vault_key vault_data_bytes nonce : Bytes) :
    Except CryptoError Bytes :=
  match encrypt_aes_gcm aesgcm vault_key vault_data_bytes nonce with
  | .ok (n, encrypted_data) => .ok (n ++ encrypted_data)
  | .error e => .error e

/-- Result of `initialize_vault`: the shares persisted on the host, the
metadata written to `meta.json`, the derived vault key (a local of the
Python function, exposed for specification), and the vault file bytes. -/
structure InitResult where
  host_chunks : List Bytes
  metadata : Metadata
  vault_key : Bytes
  vault_file : Except CryptoError Bytes
deriving Repr

/-- Model of `vault_manager.VaultManager.initialize_vault`. The random
inputs drawn inside the Python function (`usb_salt = os.urandom(16)`,
`host_secret_blob = os.urandom(32)`, the encryption nonce) and the host
fingerprint probe are explicit arguments; the external primitives are
function parameters. An empty secret propagates the `ValueError` of
`split_master_key`. -/
def initialize_vault (split : SplitFn) (argon2id : Argon2Fn) (aesgcm : AesEnc)
    (pin_bytes usb_salt host_secret_blob system_fingerprint enc_nonce : Bytes) :
    Except String InitResult :=
  match split_master_key split host_secret_blob DEFAULT_REQUIRED_SHARES DEFAULT_TOTAL_SHARES with
  | .error e => .error e
  | .ok all_shares =>
    let host_chunks := all_shares.take num_host_chunks
    let usb_chunks := all_shares.drop num_host_chunks
    let metadata : Metadata :=
      { salt_hex := bytesToHex usb_salt
        usb_chunks_hex := usb_chunks.map bytesToHex
        system_fingerprint_hex := bytesToHex system_fingerprint
        usb_signature := none }
    let key_material := pin_bytes ++ usb_salt ++ host_secret_blob ++ system_fingerprint
    let vault_key := derive_key_argon2 argon2id key_material usb_salt
    .ok { host_chunks := host_chunks
          metadata := metadata
          vault_key := vault_key
          vault_file := lock_vault aesgcm vault_key initial_vault_data enc_nonce }

/-- Error surface of `unlock_vault`, mapping its raise sites:
`PermissionError("Hardware changed! …")`, `PermissionError("Could not
find all required host chunks. …")`, `ValueError("Failed to reconstruct
secret key. …")`, and the propagated errors of `decrypt_aes_gcm`. -/
inductive UnlockError where
  | HardwareMismatch
  | MissingHostShares
  | ReconstructFailed
  | CryptoFailure (e : CryptoError)
deriving DecidableEq, Repr

/-- Environment `unlock_vault` reads: the parsed metadata, the current
host fingerprint probe result, the host chunk directory, and the bytes
of `vault.enc`. -/
structure UnlockEnv where
  metadata : Metadata
  current_fingerprint : Bytes
  host_dir : Option (Nat → Option Bytes)
  vault_file : Bytes

/-- Model of `chunk_manager.reconstruct_master_key`: `pyshamir.combine`
with every exception wrapped into a `ValueError`. -/
def reconstruct_master_key (combine : List Bytes → Except String Bytes)
    (shares : List Bytes) : Except String Bytes :=
  match combine shares with
  | .ok master_key => .ok master_key
  | .error e =>
    .error ("Failed to reconstruct secret. Not enough or invalid shares provided. Details: " ++ e)

/-- Tail of `unlock_vault` (lines 91–96): split the vault file into a
12-byte nonce and the remainder, then decrypt. -/
def vault_decrypt_tail (aesgcm : AesDec) (vault_key file_bytes : Bytes) :
    Except UnlockError Bytes :=
  let nonce := file_bytes.take AES_NONCE_SIZE
  let encrypted_data := file_bytes.drop AES_NONCE_SIZE
  match decrypt_aes_gcm aesgcm vault_key nonce encrypted_data with
  | .ok plaintext => .ok plaintext
  | .error e => .error (.CryptoFailure e)

/-- Model of `vault_manager.VaultManager.unlock_vault`: fingerprint gate,
host chunk loading and counting, reconstruction of the host secret from
the first `DEFAULT_REQUIRED_SHARES` available shares, key derivation,
and decryption of the vault file. The JSON parse of the decrypted
plaintext is out of scope; the plaintext bytes are returned. -/
def unlock_vault (argon2id : Argon2Fn) (combine : List Bytes → Except String Bytes)
    (aesgcm : AesDec) (env : UnlockEnv) (pin_bytes : Bytes) : Except UnlockError Bytes :=
  let stored_fingerprint := hexToBytes env.metadata.system_fingerprint_hex
  if stored_fingerprint ≠ env.current_fingerprint then
    .error .HardwareMismatch
  else
    let usb_salt := hexToBytes env.metadata.salt_hex
    let usb_chunks := env.metadata.usb_chunks_hex.map hexToBytes
    let host_chunks := load_host_chunks env.host_dir num_host_chunks
    if host_chunks.length < num_host_chunks then
      .error .MissingHostShares
    else
      let all_available_shares := host_chunks ++ usb_chunks
      match reconstruct_master_key combine (all_available_shares.take DEFAULT_REQUIRED_SHARES) with
      | .error _ => .error .ReconstructFailed
      | .ok host_secret_blob =>
        let key_material := pin_bytes ++ usb_salt ++ host_secret_blob ++ env.current_fingerprint
        let vault_key := derive_key_argon2 argon2id key_material usb_salt
        vault_decrypt_tail aesgcm vault_key env.vault_file

/-- Environment an unlock reproducing `initialize_vault`'s on-disk state
runs in: the metadata it wrote, the host chunk files it saved, the
current fingerprint probe result, and the vault file bytes. -/
def env_of_init (ir : InitResult) (current_fp file : Bytes) : UnlockEnv :=
  { metadata := ir.metadata
    current_fingerprint := current_fp
    host_dir := some (save_host_chunks ir.host_chunks)
    vault_file := file }

/-! Model of `ursafe_sdk/log_manager.py`.

A log record as parsed from one line of `logchain.json`. Appended lines
are always nonempty well-formed JSON objects with the five keys in
insertion order `timestamp, action, prev_hash, signature, current_hash`,
so the reachable log states are modelled as lists of records together
with the exact serialization the source hashes. SHA-256 (hex digest of
the UTF-8 bytes of a string) is the function parameter `sha256hex`. -/

structure LogEntry where
  timestamp : String
  action : String
  prev_hash : String
  signature : String
  current_hash : String
deriving DecidableEq, Repr

/-- Hex SHA-256 of the UTF-8 bytes of a string, as
`crypto_manager.hash_sha256(s.encode('utf-8')).hex()`. -/
abbrev HashFn := String → String

/-- Canonical serialization hashed by both `add_log_entry` (line 72) and
`verify_log_chain` (line 133): `json.dumps` of the record without
`signature` and `current_hash`, with `sort_keys=True` and default
separators, keys in alphabetical order `action, prev_hash, timestamp`.
Field strings are assumed free of characters that `json.dumps` escapes,
which holds for every value the source writes. -/
def canonical_entry_json (action prev_hash timestamp : String) : String :=
  "\x7b\"action\": \"" ++ action ++ "\", \"prev_hash\": \"" ++ prev_hash ++
    "\", \"timestamp\": \"" ++ timestamp ++ "\"\x7d"

/-- Line written by `add_log_entry` (line 95): `json.dumps(entry_data)`
without `sort_keys`, keys in insertion order
`timestamp, action, prev_hash, signature, current_hash`. -/
def entry_line_json (e : LogEntry) : String :=
  "\x7b\"timestamp\": \"" ++ e.timestamp ++ "\", \"action\": \"" ++ e.action ++
    "\", \"prev_hash\": \"" ++ e.prev_hash ++ "\", \"signature\": \"" ++ e.signature ++
    "\", \"current_hash\": \"" ++ e.current_hash ++ "\"\x7d"

/-- Model of `log_manager.get_previous_hash`: hash of the last line as
written, or `"genesis"` for a missing or empty log. -/
def get_previous_hash (sha256hex : HashFn) (log : List LogEntry) : String :=
  match log.getLast? with
  | none => "genesis"
  | some e => sha256hex (entry_line_json e)

/-- Model of `log_manager.add_log_entry` in the unsigned case
(`signing_key=None`, so `signature = "unsigned"`): chain to the previous
line, hash the canonical serialization, append the record. -/
def add_log_entry (sha256hex : HashFn) (log : List LogEntry)
    (timestamp action_description : String) : List LogEntry :=
  let prev_hash := get_previous_hash sha256hex log
  let entry_json := canonical_entry_json action_description prev_hash timestamp
  let current_hash := sha256hex entry_json
  log ++ [{ timestamp := timestamp
            action := action_description
            prev_hash := prev_hash
            signature := "unsigned"
            current_hash := current_hash }]

/-- Loop body of `log_manager.verify_log_chain`: compare each record's
`prev_hash` with the accumulator, recompute `current_hash` from the
canonical serialization, and pass the recomputed hash on as the next
expected `prev_hash` (line 141). -/
def verify_entries (sha256hex : HashFn) : String → List LogEntry → Bool
  | _, [] => true
  | previous_hash, e :: rest =>
    if e.prev_hash ≠ previous_hash then false
    else
      let calculated_hash := sha256hex (canonical_entry_json e.action e.prev_hash e.timestamp)
      if e.current_hash ≠ calculated_hash then false
      else verify_entries sha256hex calculated_hash rest

/-- Model of `log_manager.verify_log_chain`: walk the records starting
from the expected hash `"genesis"`; an empty log is valid. -/
def verify_log_chain (sha256hex : HashFn) (log : List LogEntry) : Bool :=
  verify_entries sha256hex "genesis" log

/-! Model of `ursafe_sdk/usb_manager.py::verify_stick`. -/

/-- Structured verification result of `verify_stick`; absent dictionary
keys of the failure results are `none`. -/
structure VerifyResult where
  valid : Bool
  reason : String
  system_match : Option Bool := none
  usb_signature : Option String := none
deriving DecidableEq, Repr

/-- What `verify_stick` observes about a drive: the `os.path` existence
checks, the parse result of `meta.json` (`none` models unreadable JSON or
a missing required field), the current volume signature from
`get_usb_signature`, and the current host fingerprint probe result. -/
structure StickEnv where
  drive_path_ok : Bool
  ursafe_dir_ok : Bool
  vault_enc_exists : Bool
  meta_json_exists : Bool
  metadata : Option Metadata
  current_usb_signature : String
  current_fingerprint : Bytes

/-- Python truthiness gate of line 95: `if stored_sig and stored_sig !=
usb_sig` — an absent key (`None`) and the empty string are both falsy. -/
def stored_sig_mismatch (stored_sig : Option String) (usb_sig : String) : Bool :=
  match stored_sig with
  | none => false
  | some s => if s = "" then false else decide (s ≠ usb_sig)

/-- Model of `usb_manager.verify_stick`, short-circuiting on the first
failed check exactly as the source does. -/
def verify_stick (env : StickEnv) : VerifyResult :=
  if !env.drive_path_ok then { valid := false, reason := "Drive path invalid" }
  else if !env.ursafe_dir_ok then
    { valid := false, reason := "Not a UR Safe Stick (no .ursafe directory)" }
  else if !env.vault_enc_exists then
    { valid := false, reason := "Missing required file: vault.enc" }
  else if !env.meta_json_exists then
    { valid := false, reason := "Missing required file: meta.json" }
  else
    match env.metadata with
    | none => { valid := false, reason := "Invalid metadata: missing required field" }
    | some m =>
      if stored_sig_mismatch m.usb_signature env.current_usb_signature then
        { valid := false, reason := "USB signature mismatch - possible clone" }
      else
        let stored_fp := hexToBytes m.system_fingerprint_hex
        { valid := true
          reason := "Valid UR Safe Stick"
          system_match := some (decide (stored_fp = env.current_fingerprint))
          usb_signature := some env.current_usb_signature }

/-! Filesystem view of `initialize_vault` for the idempotence question. -/

/-- On-medium state of one mount: whether `.ursafe/` exists and the
current contents of `meta.json` and `vault.enc`. -/
structure DriveState where
  ursafe_exists : Bool
  meta : Option Metadata
  vault : Option Bytes
deriving Repr

/-- Effect of `initialize_vault` on a mount that may already hold a
vault: `os.makedirs(..., exist_ok=True)` creates the directory
unconditionally, the metadata is written before key derivation, and the
vault file is replaced last. The second component is the error message
of an escaping exception; partial writes made before the raise remain,
as on the real filesystem. -/
def initialize_vault_drive (split : SplitFn) (argon2id : Argon2Fn) (aesgcm : AesEnc)
    (prior : DriveState) (pin_bytes usb_salt host_secret_blob system_fingerprint enc_nonce : Bytes) :
    DriveState × Option String :=
  match initialize_vault split argon2id aesgcm pin_bytes usb_salt host_secret_blob
      system_fingerprint enc_nonce with
  | .error e => ({ ursafe_exists := true, meta := prior.meta, vault := prior.vault }, some e)
  | .ok ir =>
    match ir.vault_file with
    | .ok f => ({ ursafe_exists := true, meta := some ir.metadata, vault := some f }, none)
    | .error _ =>
      ({ ursafe_exists := true, meta := some ir.metadata, vault := prior.vault },
        some "Invalid AES key size.")

/-- Third character of a string, a discriminator for the two JSON
serializations of a log record. -/
def third_char (s : String) : Option Char :=
  s.data[2]?

/-! Concrete stand-ins for the external primitives, used to evaluate the
quantified theorems at explicit inputs. The theorems hold for every
primitive; these instances make the hypotheses decidably checkable. -/

/-- Concrete splitter: twenty one-byte shares, ignoring its arguments. -/
def split20 : SplitFn := fun _ _ _ => (List.range DEFAULT_TOTAL_SHARES).map (fun i => [i])

/-- Concrete KDF stand-in: first 32 bytes of password followed by salt. -/
def argonConcat : Argon2Fn := fun _ _ _ _ password salt => (password ++ salt).take 32

/-- Concrete cipher stand-in whose ciphertext equals the plaintext. -/
def aesId : AesEnc := fun _ _ data => data

/-- Concrete decryption stand-in accepting every ciphertext. -/
def aesAccept : AesDec := fun _ _ c => some c

/-- Concrete decryption stand-in failing authentication on every input. -/
def aesReject : AesDec := fun _ _ _ => none

/-- Concrete 32-byte host secret. -/
def secret32 : Bytes := List.replicate 32 9

/-- Concrete combine stand-in returning the host secret. -/
def combineConst : List Bytes → Except String Bytes := fun _ => .ok secret32

/-- Concrete 16-byte salt. -/
def salt16 : Bytes := List.replicate 16 1

/-- Concrete 32-byte fingerprint. -/
def fp32 : Bytes := List.replicate 32 2

/-- Concrete PIN bytes (`"1234".encode('utf-8')`). -/
def pin4 : Bytes := [49, 50, 51, 52]

/-- Concrete 12-byte nonce. -/
def nonce12 : Bytes := List.replicate 12 3

/-- Concrete vault file bytes (12-byte nonce plus 8 ciphertext bytes). -/
def file20 : Bytes := List.replicate 20 4

/-- Concrete metadata as `initialize_vault` writes it. -/
def meta0 : Metadata :=
  { salt_hex := bytesToHex salt16
    usb_chunks_hex := []
    system_fingerprint_hex := bytesToHex fp32 }

/-- Host chunk directory holding files `.c_1` … `.c_7`. -/
def dir7 : Nat → Option Bytes := fun i => if 1 ≤ i ∧ i ≤ 7 then some [i] else none

/-- Host chunk directory holding files `.c_1` … `.c_3`. -/
def dir3 : Nat → Option Bytes := fun i => if 1 ≤ i ∧ i ≤ 3 then some [i] else none

/-- Unlock environment with seven loadable host share files and a
matching fingerprint. -/
def env7 : UnlockEnv :=
  { metadata := meta0
    current_fingerprint := fp32
    host_dir := some dir7
    vault_file := file20 }

/-- Unlock environment with three loadable host share files and a
matching fingerprint. -/
def env3 : UnlockEnv :=
  { metadata := meta0
    current_fingerprint := fp32
    host_dir := some dir3
    vault_file := file20 }

/-- Unlock environment whose current fingerprint differs from the stored
one. -/
def envMismatch : UnlockEnv :=
  { metadata := meta0
    current_fingerprint := List.replicate 32 5
    host_dir := some dir7
    vault_file := file20 }

/-- Concrete result of `initialize_vault` on the stand-in primitives. -/
def initResult0 : InitResult :=
  match initialize_vault split20 argonConcat aesId pin4 salt16 secret32 fp32 nonce12 with
  | .ok r => r
  | .error _ =>
    { host_chunks := []
      metadata := { salt_hex := "", usb_chunks_hex := [], system_fingerprint_hex := "" }
      vault_key := []
      vault_file := .error .InvalidKeySize }

/-- Stick environment for a vault as written by `initialize_vault`. -/
def stick0 : StickEnv :=
  { drive_path_ok := true
    ursafe_dir_ok := true
    vault_enc_exists := true
    meta_json_exists := true
    metadata := some meta0
    current_usb_signature := "LINUX-1234"
    current_fingerprint := fp32 }

/-- Metadata of a pre-existing vault, distinct from anything the
stand-in initialization writes. -/
def oldMeta : Metadata :=
  { salt_hex := "ff"
    usb_chunks_hex := ["0a"]
    system_fingerprint_hex := "ee" }

/-- Drive that already holds a vault. -/
def priorVault : DriveState :=
  { ursafe_exists := true
    meta := some oldMeta
    vault := some [9, 9, 9] }

/-- Freshly blank drive. -/
def blankDrive : DriveState :=
  { ursafe_exists := false
    meta := none
    vault := none }

deriving instance DecidableEq for Except

theorem hexCharVal_hexDigitChar : ∀ n, n < 16 → hexCharVal (hexDigitChar n) = n := by
  decide

theorem hexToBytes_bytesToHex (bs : Bytes) (h : ∀ b ∈ bs, b < 256) :
    hexToBytes (bytesToHex bs) = bs := by
  induction bs with
  | nil => rfl
  | cons b t ih =>
    have hb : b < 256 := h b (List.mem_cons_self b t)
    have ht : ∀ x ∈ t, x < 256 := fun x hx => h x (List.mem_cons_of_mem b hx)
    have hdiv : b / 16 < 16 := Nat.div_lt_of_lt_mul (by omega)
    have hmod : b / 16 % 16 = b / 16 := Nat.mod_eq_of_lt hdiv
    have h1 : hexCharVal (hexDigitChar (b / 16 % 16)) = b / 16 % 16 :=
      hexCharVal_hexDigitChar _ (Nat.mod_lt _ (by omega))
    have h2 : hexCharVal (hexDigitChar (b % 16)) = b % 16 :=
      hexCharVal_hexDigitChar _ (Nat.mod_lt _ (by omega))
    have hstep : hexToBytes (bytesToHex (b :: t)) =
        (16 * hexCharVal (hexDigitChar (b / 16 % 16)) + hexCharVal (hexDigitChar (b % 16)))
          :: hexToBytes (bytesToHex t) := rfl
    rw [hstep, h1, h2, hmod, ih ht]
    have : 16 * (b / 16) + b % 16 = b := by omega
    rw [this]

theorem range_filterMap_getElem {α : Type} (l : List α) :
    (List.range l.length).filterMap (fun i => l[i]?) = l := by
  induction l with
  | nil => rfl
  | cons a t ih =>
    rw [List.length_cons, List.range_succ_eq_map, List.filterMap_cons]
    simp only [List.getElem?_cons_zero]
    rw [List.filterMap_map]
    have hcomp : ((fun i => (a :: t)[i]?) ∘ Nat.succ) = fun i : Nat => t[i]? := by
      funext i
      simp
    rw [hcomp, ih]

theorem load_host_chunks_save (shares : List Bytes) (n : Nat) (h : shares.length = n) :
    load_host_chunks (some (save_host_chunks shares)) n = shares := by
  subst h
  show (List.range shares.length).filterMap
      (fun i => if 1 ≤ i + 1 then shares[i + 1 - 1]? else none) = shares
  have hfun : (fun i => if 1 ≤ i + 1 then shares[i + 1 - 1]? else none) =
      fun i : Nat => shares[i]? := by
    funext i
    simp
  rw [hfun, range_filterMap_getElem]

/-- Supporting fact for the log chain: the line written for a record and
the canonical serialization hashed during verification are different
strings, whatever the field values — their third characters differ. -/
theorem entry_line_ne_canonical (e : LogEntry) (a p t : String) :
    entry_line_json e ≠ canonical_entry_json a p t := by
  intro h
  have h2 : (some 't' : Option Char) = some 'a' := congrArg third_char h
  simp at h2

/-- Claim C7 counterexample: with a 32-byte key and an 11-byte nonce,
`decrypt_aes_gcm` does not fail with a nonce-size error as the claim
requires — the underlying AEAD failure surfaces as the generic
decryption error, and no code path yields `InvalidNonceSize`. -/
theorem decrypt_wrong_size_nonce_no_nonce_error :
    (List.replicate 11 0).length ≠ AES_NONCE_SIZE
    ∧ decrypt_aes_gcm aesReject (List.replicate 32 0) (List.replicate 11 0) [1, 2, 3]
        = .error .DecryptionFailed
    ∧ decrypt_aes_gcm aesReject (List.replicate 32 0) (List.replicate 11 0) [1, 2, 3]
        ≠ .error .InvalidNonceSize := by
  refine ⟨by decide, rfl, by decide⟩

/-- Claim C7 (amended): `encrypt_aes_gcm` and `decrypt_aes_gcm` fail with
the key-size error for every key whose length is not 32 bytes, but
`decrypt_aes_gcm` performs no nonce-size validation: whatever the nonce
length, its result is never a nonce-size error. -/
theorem crypto_boundary_key_size_checks (aese : AesEnc) (aesd : AesDec)
    (key nonce data : Bytes) :
    (key.length ≠ AES_KEY_SIZE →
      encrypt_aes_gcm aese key data nonce = .error .InvalidKeySize
        ∧ decrypt_aes_gcm aesd key nonce data = .error .InvalidKeySize)
    ∧ decrypt_aes_gcm aesd key nonce data ≠ .error .InvalidNonceSize := by
  constructor
  · intro hk
    refine ⟨?_, ?_⟩
    · simp [encrypt_aes_gcm, hk]
    · simp [decrypt_aes_gcm, hk]
  · simp only [decrypt_aes_gcm]
    split
    · simp
    · split <;> simp

/-- Witness for C7's amended theorem at a 31-byte key. -/
theorem crypto_boundary_key_size_checks_witness :
    (encrypt_aes_gcm aesId (List.replicate 31 0) [1] nonce12 = .error .InvalidKeySize
      ∧ decrypt_aes_gcm aesReject (List.replicate 31 0) nonce12 [1] = .error .InvalidKeySize)
    ∧ decrypt_aes_gcm aesReject (List.replicate 31 0) nonce12 [1] ≠ .error .InvalidNonceSize :=
  ⟨(crypto_boundary_key_size_checks aesId aesReject (List.replicate 31 0) nonce12 [1]).1
      (by decide),
    (crypto_boundary_key_size_checks aesId aesReject (List.replicate 31 0) nonce12 [1]).2⟩

/-- Claim C6: for every 32-byte key and every plaintext, the vault file
written by `lock_vault` is exactly the 12-byte nonce followed by the
ciphertext with tag, with no header, and the read path of `unlock_vault`
(first 12 bytes as nonce, decrypt the remainder under the same key)
returns the original plaintext, given the AEAD round-trip property of
the external cipher. -/
theorem vault_file_layout_roundtrip (aese : AesEnc) (aesd : AesDec)
    (hround : ∀ k n d, aesd k n (aese k n d) = some d)
    (key nonce data : Bytes) (hkey : key.length = AES_KEY_SIZE)
    (hnonce : nonce.length = AES_NONCE_SIZE) :
    lock_vault aese key data nonce = .ok (nonce ++ aese key nonce data)
    ∧ vault_decrypt_tail aesd key (nonce ++ aese key nonce data) = .ok data := by
  have hk : ¬key.length ≠ AES_KEY_SIZE := by simp [hkey]
  constructor
  · simp [lock_vault, encrypt_aes_gcm, hk]
  · simp only [vault_decrypt_tail]
    rw [List.take_left' hnonce, List.drop_left' hnonce]
    simp [decrypt_aes_gcm, hk, hround]

/-- Witness for C6 at the identity stand-in cipher, a 32-byte key, a
12-byte nonce and a three-byte plaintext. -/
theorem vault_file_layout_roundtrip_witness :
    lock_vault aesId (List.replicate 32 0) [1, 2, 3] nonce12
        = .ok (nonce12 ++ aesId (List.replicate 32 0) nonce12 [1, 2, 3])
    ∧ vault_decrypt_tail aesAccept (List.replicate 32 0)
        (nonce12 ++ aesId (List.replicate 32 0) nonce12 [1, 2, 3]) = .ok [1, 2, 3] :=
  vault_file_layout_roundtrip aesId aesAccept (fun _ _ _ => rfl)
    (List.replicate 32 0) nonce12 [1, 2, 3] (by decide) (by decide)

/-- Claim C4: whenever the stored fingerprint differs from the current
one, `unlock_vault` fails with the hardware-mismatch error, and the
result is independent of the KDF, the share combiner and the AEAD
decryption — none of them is reached. -/
theorem unlock_hardware_mismatch_before_crypto (argon2id : Argon2Fn)
    (combine : List Bytes → Except String Bytes) (aesgcm : AesDec)
    (env : UnlockEnv) (pin_bytes : Bytes)
    (h : hexToBytes env.metadata.system_fingerprint_hex ≠ env.current_fingerprint) :
    unlock_vault argon2id combine aesgcm env pin_bytes = .error .HardwareMismatch := by
  simp [unlock_vault, h]

/-- Witness for C4 at an environment whose probe fingerprint differs
from the stored one. -/
theorem unlock_hardware_mismatch_before_crypto_witness :
    unlock_vault argonConcat combineConst aesAccept envMismatch pin4
      = .error .HardwareMismatch :=
  unlock_hardware_mismatch_before_crypto argonConcat combineConst aesAccept envMismatch pin4
    (by decide)

/-- Claim C3 counterexample: seven host share files are loadable — fewer
than the ten the claim requires for success — yet `unlock_vault` does
not fail with the missing-host-shares error: the source only ever loads
`DEFAULT_REQUIRED_SHARES // 2 = 5` files and proceeds once five are
present. -/
theorem unlock_seven_shares_not_missing :
    (load_host_chunks (some dir7) 10).length < 10
    ∧ unlock_vault argonConcat combineConst aesAccept env7 pin4
        ≠ .error .MissingHostShares := by
  refine ⟨by decide, by decide⟩

/-- Claim C3 (amended): on a fingerprint-matching vault, `unlock_vault`
loads up to `num_host_chunks = 5` host share files (`.c_1` … `.c_5`) and
fails with the missing-host-shares error — independently of the KDF,
combiner and decryption, which are not reached — exactly when fewer
than five of those are loadable. -/
theorem unlock_missing_host_shares_iff (argon2id : Argon2Fn)
    (combine : List Bytes → Except String Bytes) (aesgcm : AesDec)
    (env : UnlockEnv) (pin_bytes : Bytes)
    (hfp : hexToBytes env.metadata.system_fingerprint_hex = env.current_fingerprint) :
    unlock_vault argon2id combine aesgcm env pin_bytes = .error .MissingHostShares
      ↔ (load_host_chunks env.host_dir num_host_chunks).length < num_host_chunks := by
  simp only [unlock_vault]
  rw [if_neg (by simp [hfp])]
  by_cases hc : (load_host_chunks env.host_dir num_host_chunks).length < num_host_chunks
  · simp [hc]
  · rw [if_neg hc]
    simp only [hc, iff_false]
    simp only [reconstruct_master_key]
    cases combine ((load_host_chunks env.host_dir num_host_chunks
        ++ env.metadata.usb_chunks_hex.map hexToBytes).take DEFAULT_REQUIRED_SHARES) with
    | error e => simp
    | ok k =>
      simp only [vault_decrypt_tail]
      cases decrypt_aes_gcm aesgcm
          (derive_key_argon2 argon2id
            (pin_bytes ++ hexToBytes env.metadata.salt_hex ++ k ++ env.current_fingerprint)
            (hexToBytes env.metadata.salt_hex))
          (env.vault_file.take AES_NONCE_SIZE) (env.vault_file.drop AES_NONCE_SIZE) with
      | ok pt => simp
      | error e => simp

/-- Witness for C3's amended theorem: with only three loadable host
share files, unlock fails with the missing-host-shares error. -/
theorem unlock_missing_host_shares_iff_witness :
    unlock_vault argonConcat combineConst aesAccept env3 pin4
      = .error .MissingHostShares :=
  (unlock_missing_host_shares_iff argonConcat combineConst aesAccept env3 pin4
      (by decide)).mpr (by decide)

/-- Claim C2 counterexample: on a splitter returning twenty shares,
`initialize_vault` persists five host shares, not ten, and writes
fifteen usb chunks, not ten. -/
theorem init_usb_chunks_not_ten :
    (initialize_vault split20 argonConcat aesId pin4 salt16 secret32 fp32 nonce12).map
        (fun ir => ir.metadata.usb_chunks_hex.length) ≠ .ok 10
    ∧ (initialize_vault split20 argonConcat aesId pin4 salt16 secret32 fp32 nonce12).map
        (fun ir => ir.host_chunks.length) ≠ .ok 10 := by
  refine ⟨by decide, by decide⟩

/-- Claim C2 (amended): `initialize_vault` splits the host secret into
twenty shares with threshold ten, persists exactly the first five
(`DEFAULT_REQUIRED_SHARES // 2`) as host share files, and stores the
remaining fifteen hex-encoded in `usb_chunks_hex`, which therefore
always has exactly fifteen entries. -/
theorem init_share_placement_five_fifteen (split : SplitFn) (argon2id : Argon2Fn)
    (aese : AesEnc) (pin_bytes usb_salt host_secret fp enc_nonce : Bytes)
    (hsec : host_secret ≠ [])
    (hsplit : (split host_secret DEFAULT_TOTAL_SHARES DEFAULT_REQUIRED_SHARES).length
      = DEFAULT_TOTAL_SHARES) :
    (initialize_vault split argon2id aese pin_bytes usb_salt host_secret fp enc_nonce).map
        (fun ir => (ir.host_chunks, ir.metadata.usb_chunks_hex)) =
      .ok ((split host_secret DEFAULT_TOTAL_SHARES DEFAULT_REQUIRED_SHARES).take 5,
        ((split host_secret DEFAULT_TOTAL_SHARES DEFAULT_REQUIRED_SHARES).drop 5).map bytesToHex)
    ∧ (initialize_vault split argon2id aese pin_bytes usb_salt host_secret fp enc_nonce).map
        (fun ir => ir.metadata.usb_chunks_hex.length) = .ok 15 := by
  have hne : ¬host_secret.length = 0 := by
    simpa [List.length_eq_zero] using hsec
  constructor
  · simp [initialize_vault, split_master_key, hne, Except.map, num_host_chunks,
      DEFAULT_REQUIRED_SHARES]
  · have hs20 : (split host_secret 20 10).length = 20 := by
      simpa [DEFAULT_TOTAL_SHARES, DEFAULT_REQUIRED_SHARES] using hsplit
    simp [initialize_vault, split_master_key, hne, Except.map, num_host_chunks,
      DEFAULT_REQUIRED_SHARES, DEFAULT_TOTAL_SHARES, hs20]

/-- Witness for C2's amended theorem on the concrete stand-ins. -/
theorem init_share_placement_five_fifteen_witness :
    (initialize_vault split20 argonConcat aesId pin4 salt16 secret32 fp32 nonce12).map
        (fun ir => (ir.host_chunks, ir.metadata.usb_chunks_hex)) =
      .ok ((split20 secret32 DEFAULT_TOTAL_SHARES DEFAULT_REQUIRED_SHARES).take 5,
        ((split20 secret32 DEFAULT_TOTAL_SHARES DEFAULT_REQUIRED_SHARES).drop 5).map bytesToHex)
    ∧ (initialize_vault split20 argonConcat aesId pin4 salt16 secret32 fp32 nonce12).map
        (fun ir => ir.metadata.usb_chunks_hex.length) = .ok 15 :=
  init_share_placement_five_fifteen split20 argonConcat aesId pin4 salt16 secret32 fp32 nonce12
    (by decide) (by decide)

/-- Claim C9 counterexample: on a mount that already holds a vault,
`initialize_vault` neither fails nor requires any confirmation — its
signature has no confirmation input at all — and it silently replaces
the existing metadata. -/
theorem initialize_overwrites_existing_vault :
    priorVault.ursafe_exists = true
    ∧ (initialize_vault_drive split20 argonConcat aesId priorVault
        pin4 salt16 secret32 fp32 nonce12).2 = none
    ∧ (initialize_vault_drive split20 argonConcat aesId priorVault
        pin4 salt16 secret32 fp32 nonce12).1.meta ≠ some oldMeta
    ∧ (initialize_vault_drive split20 argonConcat aesId priorVault
        pin4 salt16 secret32 fp32 nonce12).1.meta ≠ none := by
  refine ⟨rfl, by decide, by decide, by decide⟩

/-- Claim C9 (amended): `initialize_vault` performs no existence check:
for any nonempty host secret, the metadata it leaves on the mount, the
error outcome and the presence of `.ursafe/` are independent of the
prior drive state, so a second initialization silently overwrites the
existing vault; the explicit overwrite confirmation exists only in the
GUI caller (`dashboard/main_window.handle_initialize`), outside this
function. -/
theorem initialize_ignores_prior_drive_state (split : SplitFn) (argon2id : Argon2Fn)
    (aese : AesEnc) (prior prior2 : DriveState)
    (pin_bytes usb_salt host_secret fp enc_nonce : Bytes)
    (hsec : host_secret ≠ []) :
    (initialize_vault_drive split argon2id aese prior
        pin_bytes usb_salt host_secret fp enc_nonce).1.ursafe_exists = true
    ∧ (initialize_vault_drive split argon2id aese prior
        pin_bytes usb_salt host_secret fp enc_nonce).1.meta
      = (initialize_vault_drive split argon2id aese prior2
        pin_bytes usb_salt host_secret fp enc_nonce).1.meta
    ∧ (initialize_vault_drive split argon2id aese prior
        pin_bytes usb_salt host_secret fp enc_nonce).2
      = (initialize_vault_drive split argon2id aese prior2
        pin_bytes usb_salt host_secret fp enc_nonce).2 := by
  have hne : ¬host_secret.length = 0 := by
    simpa [List.length_eq_zero] using hsec
  simp only [initialize_vault_drive, initialize_vault, split_master_key, hne, if_false]
  split <;> simp

/-- Witness for C9's amended theorem: the drive already holding a vault
and a blank drive end with identical metadata and error outcome. -/
theorem initialize_ignores_prior_drive_state_witness :
    (initialize_vault_drive split20 argonConcat aesId priorVault
        pin4 salt16 secret32 fp32 nonce12).1.ursafe_exists = true
    ∧ (initialize_vault_drive split20 argonConcat aesId priorVault
        pin4 salt16 secret32 fp32 nonce12).1.meta
      = (initialize_vault_drive split20 argonConcat aesId blankDrive
        pin4 salt16 secret32 fp32 nonce12).1.meta
    ∧ (initialize_vault_drive split20 argonConcat aesId priorVault
        pin4 salt16 secret32 fp32 nonce12).2
      = (initialize_vault_drive split20 argonConcat aesId blankDrive
        pin4 salt16 secret32 fp32 nonce12).2 :=
  initialize_ignores_prior_drive_state split20 argonConcat aesId priorVault blankDrive
    pin4 salt16 secret32 fp32 nonce12 (by decide)

/-- Claim C10: `initialize_vault` writes metadata whose `usb_signature`
field is absent, and `verify_stick` on any environment whose parsed
metadata lacks `usb_signature` never returns the clone-suspected
failure, whatever the volume and host. -/
theorem verify_stick_never_clone_for_initialized :
    (∀ (split : SplitFn) (argon2id : Argon2Fn) (aese : AesEnc)
        (pin_bytes usb_salt host_secret fp enc_nonce : Bytes),
      host_secret ≠ [] →
      (initialize_vault split argon2id aese pin_bytes usb_salt host_secret fp enc_nonce).map
          (fun ir => ir.metadata.usb_signature) = .ok none)
    ∧ ∀ (env : StickEnv) (m : Metadata), env.metadata = some m → m.usb_signature = none →
        (verify_stick env).reason ≠ "USB signature mismatch - possible clone" := by
  constructor
  · intro split argon2id aese pin_bytes usb_salt host_secret fp enc_nonce hsec
    have hne : ¬host_secret.length = 0 := by
      simpa [List.length_eq_zero] using hsec
    simp [initialize_vault, split_master_key, hne, Except.map]
  · intro env m hm hsig
    simp only [verify_stick, hm]
    split
    · simp
    · split
      · simp
      · split
        · simp
        · split
          · simp
          · rw [if_neg (by simp [stored_sig_mismatch, hsig])]
            simp

/-- Claim C5: the vault key is Argon2id with `t=2, m=65536, p=2` and
32-byte output applied to the ordered concatenation
`pin_bytes ++ salt ++ host_secret ++ fingerprint`, with the same salt
also passed as the Argon2 salt parameter; and on the exact state
`initialize_vault` wrote, `unlock_vault` reaches decryption with that
same key, for every AEAD decryption function. -/
theorem vault_key_derivation_pipeline (split : SplitFn) (argon2id : Argon2Fn)
    (aese : AesEnc) (aesd : AesDec) (combine : List Bytes → Except String Bytes)
    (pin_bytes usb_salt host_secret fp enc_nonce file : Bytes) (ir : InitResult)
    (hsalt : ∀ b ∈ usb_salt, b < 256) (hfp : ∀ b ∈ fp, b < 256)
    (hsplit : (split host_secret DEFAULT_TOTAL_SHARES DEFAULT_REQUIRED_SHARES).length
      = DEFAULT_TOTAL_SHARES)
    (hcombine : ∀ shares, combine shares = .ok host_secret)
    (hinit : initialize_vault split argon2id aese pin_bytes usb_salt host_secret fp enc_nonce
      = .ok ir) :
    ir.vault_key = argon2id ARGON2_TIME_COST ARGON2_MEMORY_COST ARGON2_PARALLELISM AES_KEY_SIZE
        (pin_bytes ++ usb_salt ++ host_secret ++ fp) usb_salt
    ∧ unlock_vault argon2id combine aesd (env_of_init ir fp file) pin_bytes
        = vault_decrypt_tail aesd ir.vault_key file := by
  by_cases hz : host_secret.length = 0
  · rw [initialize_vault, split_master_key, if_pos hz] at hinit
    exact absurd hinit (by simp)
  · rw [initialize_vault, split_master_key, if_neg hz] at hinit
    injection hinit with hr
    subst hr
    refine ⟨rfl, ?_⟩
    have hfpdec : hexToBytes (bytesToHex fp) = fp := hexToBytes_bytesToHex fp hfp
    have hsaltdec : hexToBytes (bytesToHex usb_salt) = usb_salt :=
      hexToBytes_bytesToHex usb_salt hsalt
    have hlen : ((split host_secret DEFAULT_TOTAL_SHARES
        DEFAULT_REQUIRED_SHARES).take num_host_chunks).length = num_host_chunks := by
      rw [List.length_take, hsplit]
      decide
    have hload := load_host_chunks_save
      ((split host_secret DEFAULT_TOTAL_SHARES DEFAULT_REQUIRED_SHARES).take num_host_chunks)
      num_host_chunks hlen
    simp only [unlock_vault, env_of_init]
    rw [if_neg (by simp [hfpdec])]
    rw [hload] at *
    rw [if_neg (by simp [hlen])]
    simp only [reconstruct_master_key, hcombine, hsaltdec, hfpdec]

/-- Witness for C5 on the concrete stand-ins. -/
theorem vault_key_derivation_pipeline_witness :
    initResult0.vault_key = argonConcat ARGON2_TIME_COST ARGON2_MEMORY_COST ARGON2_PARALLELISM
        AES_KEY_SIZE (pin4 ++ salt16 ++ secret32 ++ fp32) salt16
    ∧ unlock_vault argonConcat combineConst aesAccept (env_of_init initResult0 fp32 file20) pin4
        = vault_decrypt_tail aesAccept initResult0.vault_key file20 :=
  vault_key_derivation_pipeline split20 argonConcat aesId aesAccept combineConst
    pin4 salt16 secret32 fp32 nonce12 file20 initResult0
    (by decide) (by decide) (by decide) (fun _ => rfl) rfl

/-- Claim C1: after two `add_log_entry` appends, `verify_log_chain`
returns false, for every collision-free hash — the appender stores
`prev_hash` as the hash of the entire previous line as written, while
the verifier expects it to equal the previous record's recomputed
canonical `current_hash`, a hash of a different string. This refutes
the claimed append/verify round-trip and contradicts the module's own
self-test, which asserts `verify_log_chain` after three appends. -/
theorem log_verify_fails_after_two_appends (sha256hex : HashFn)
    (hinj : Function.Injective sha256hex) (t1 a1 t2 a2 : String) :
    verify_log_chain sha256hex
      (add_log_entry sha256hex (add_log_entry sha256hex [] t1 a1) t2 a2) = false := by
  have hne : sha256hex (entry_line_json
      ⟨t1, a1, "genesis", "unsigned", sha256hex (canonical_entry_json a1 "genesis" t1)⟩)
      ≠ sha256hex (canonical_entry_json a1 "genesis" t1) :=
    fun hEq => entry_line_ne_canonical _ _ _ _ (hinj hEq)
  simp [verify_log_chain, add_log_entry, get_previous_hash, verify_entries, hne]

/-- Witness for C1's theorem at an injective concrete hash stand-in and
the self-test's action strings. -/
theorem log_verify_fails_after_two_appends_witness :
    verify_log_chain (fun s => s)
      (add_log_entry (fun s => s)
        (add_log_entry (fun s => s) [] "2025-01-01T00:00:00" "Vault Initialized")
        "2025-01-01T00:00:01" "Vault Unlocked") = false :=
  log_verify_fails_after_two_appends (fun s => s) (fun _ _ h => h)
    "2025-01-01T00:00:00" "Vault Initialized" "2025-01-01T00:00:01" "Vault Unlocked"

/-- Witness for C10: metadata written by the stand-in initialization has
no `usb_signature`, and `verify_stick` on it never reports a clone. -/
theorem verify_stick_never_clone_for_initialized_witness :
    (initialize_vault split20 argonConcat aesId pin4 salt16 secret32 fp32 nonce12).map
        (fun ir => ir.metadata.usb_signature) = .ok none
    ∧ (verify_stick stick0).reason ≠ "USB signature mismatch - possible clone" :=
  ⟨verify_stick_never_clone_for_initialized.1 split20 argonConcat aesId pin4 salt16 secret32
      fp32 nonce12 (by decide),
    verify_stick_never_clone_for_initialized.2 stick0 meta0 rfl rfl⟩

end URSafe
